import Mathlib

/-!
Shallow embedding of `src/lib/jira.js` (node-jira): a callback-based JIRA
REST client.  Every operation logs in, builds an HTTP request descriptor,
dispatches it, and classifies the response's status code into callback
invocations.  We model JSON values, responses, request descriptors, the
login exchange's effect on the stored cookies, each operation's request
builder and response classifier, and the login-then-request pipeline.
-/

namespace Jira

/-- A JavaScript/JSON value as the client manipulates it (request bodies,
parsed response bodies, results and error payloads).  `undefined` models the
JavaScript `undefined` produced by a missing object field. -/
inductive JVal where
  | undefined : JVal
  | null : JVal
  | bool (b : Bool) : JVal
  | num (n : Int) : JVal
  | str (s : String) : JVal
  | arr (elems : List JVal) : JVal
  | obj (fields : List (String × JVal)) : JVal

/-- Field access `v.key`: the first binding of `key` in an object, the
JavaScript `undefined` otherwise. -/
def jGet (v : JVal) (key : String) : JVal :=
  match v with
  | .obj fields =>
    match fields.find? (fun f => f.fst == key) with
    | some f => f.snd
    | none => .undefined
  | _ => .undefined

/-- The JavaScript test `v !== null` specialised to the `null` literal. -/
def jIsNull : JVal → Bool
  | .null => true
  | _ => false

/-- `String.prototype.toLowerCase`, modelled character-wise over the
string's characters (`Char.toLower` lowers basic latin letters, as the
source's project and view names use). -/
def strToLower (s : String) : String := ⟨s.data.map Char.toLower⟩

/-- The string content of a string value (the only case the source ever
reaches when it calls a string method on a field). -/
def jStr : JVal → String
  | .str s => s
  | _ => ""

/-- The element list of an array value (the only case the source ever
reaches when it indexes a field). -/
def jArr : JVal → List JVal
  | .arr elems => elems
  | _ => []

/-- One invocation of an operation's caller-supplied callback:
`callback(err)` is modelled with `res = none`, `callback(err, value)` with
`res = some value`; a `null` first argument means no error. -/
structure CbCall where
  err : JVal
  res : Option JVal

/-- `callback(message)` with a string error and no second argument. -/
def errCall (message : String) : CbCall := ⟨JVal.str message, none⟩

/-- `callback(null, value)`. -/
def okCall (value : JVal) : CbCall := ⟨JVal.null, some value⟩

/-- An HTTP response as the classifiers see it: status code, the
`set-cookie` response header when present (a sequence of cookie strings,
as node exposes it), and the (transport- or `JSON.parse`-) parsed body.
For operations that read a raw string body and call `JSON.parse` on it we
model the body directly by its parsed value. -/
structure Response where
  statusCode : Nat
  setCookie : Option (List String)
  body : JVal

/-- Constructor arguments of `JiraApi` (immutable after construction). -/
structure Config where
  protocol : String
  host : String
  port : String
  username : String
  password : String
  apiVersion : String

/-- `url.format({protocol, hostname, port, pathname})` for the shapes the
source uses: pathnames without a leading slash. -/
def urlFormat (cfg : Config) (pathname : String) : String :=
  cfg.protocol ++ "://" ++ cfg.host ++ ":" ++ cfg.port ++ "/" ++ pathname

/-- `self.cookies.join(';')` — the `Cookie` request-header value. -/
def cookieJoin (cookies : List String) : String :=
  String.intercalate ";" cookies

/-- Options object handed to `request(...)`: URI, method, the `Cookie`
header when one is attached (login attaches none), the `json` flag, and
the body when one is sent. -/
structure RequestSpec where
  uri : String
  method : String
  cookieHeader : Option String
  json : Bool
  body : Option JVal

/-- The login request: `POST rest/auth/1/session` with JSON body
`{username, password}` and no `Cookie` header. -/
def loginOptions (cfg : Config) : RequestSpec :=
  { uri := urlFormat cfg "rest/auth/1/session"
    method := "POST"
    cookieHeader := none
    json := true
    body := some (.obj [("username", .str cfg.username), ("password", .str cfg.password)]) }

/-- `login`'s response handler: its effect on the stored cookies and the
invocations of the callback it was given.  401 and other non-200 statuses
return before touching `self.cookies`; 200 assigns `[]` and then the
`set-cookie` header when present. -/
def login_handle (cookies : List String) (r : Response) : List String × List CbCall :=
  if r.statusCode = 401 then
    (cookies, [errCall "Failed to log in to JIRA due to authentication error."])
  else if r.statusCode ≠ 200 then
    (cookies, [errCall (toString r.statusCode ++ ": Unable to connect to JIRA during login.")])
  else
    (r.setCookie.getD [], [⟨JVal.null, none⟩])

mutual

/-- `JSON.stringify` over our value model (used by `addWorklog`'s 400
branch). -/
def jStringify : JVal → String
  | .undefined => "undefined"
  | .null => "null"
  | .bool b => if b then "true" else "false"
  | .num n => toString n
  | .str s => "\"" ++ s ++ "\""
  | .arr elems => "[" ++ jStringifyList elems ++ "]"
  | .obj fields => "\x7b" ++ jStringifyFields fields ++ "\x7d"

/-- Comma-separated serialization of array elements. -/
def jStringifyList : List JVal → String
  | [] => ""
  | [x] => jStringify x
  | x :: y :: rest => jStringify x ++ "," ++ jStringifyList (y :: rest)

/-- Comma-separated serialization of object fields. -/
def jStringifyFields : List (String × JVal) → String
  | [] => ""
  | [f] => "\"" ++ f.fst ++ "\":" ++ jStringify f.snd
  | f :: g :: rest => "\"" ++ f.fst ++ "\":" ++ jStringify f.snd ++ "," ++ jStringifyFields (g :: rest)

end

/-- One operation invocation of the client, with the arguments the caller
supplies (the callback aside). -/
inductive Op where
  | findIssue (issueNumber : String) : Op
  | getUnresolvedIssueCount (version : String) : Op
  | getProject (project : String) : Op
  | findRapidView (projectName : String) : Op
  | getLastSprintForRapidView (rapidViewId : String) : Op
  | addIssueToSprint (issueId sprintId : String) : Op
  | issueLink (link : JVal) : Op
  | getVersions (project : String) : Op
  | createVersion (version : JVal) : Op
  | searchJira (searchString : String) (fields : Option (List String)) : Op
  | addNewIssue (issue : JVal) : Op
  | deleteIssue (issueNum : String) : Op
  | updateIssue (issueNum : String) (issueUpdate : JVal) : Op
  | listTransitions (issueId : String) : Op
  | transitionIssue (issueNum : String) (issueTransition : JVal) : Op
  | listProjects : Op
  | addWorklog (issueId : String) (worklog : JVal) : Op
  | listIssueTypes : Op

/-- The default field list `searchJira` substitutes when `fields == null`. -/
def searchJiraFields (fields : Option (List String)) : List String :=
  match fields with
  | none => ["summary", "status", "assignee", "description"]
  | some fs => fs

/-- The options object each operation passes to `request(...)`, built from
the configuration and the cookies stored at that moment
(`Cookie: self.cookies.join(';')` on every operation). -/
def opOptions (cfg : Config) (cookies : List String) : Op → RequestSpec
  | .findIssue issueNumber =>
    ⟨urlFormat cfg ("rest/api/" ++ cfg.apiVersion ++ "/issue/" ++ issueNumber),
      "GET", some (cookieJoin cookies), false, none⟩
  | .getUnresolvedIssueCount version =>
    ⟨urlFormat cfg ("rest/api/" ++ cfg.apiVersion ++ "/version/" ++ version ++ "/unresolvedIssueCount"),
      "GET", some (cookieJoin cookies), false, none⟩
  | .getProject project =>
    ⟨urlFormat cfg ("rest/api/" ++ cfg.apiVersion ++ "/project/" ++ project),
      "GET", some (cookieJoin cookies), false, none⟩
  | .findRapidView _ =>
    ⟨urlFormat cfg ("rest/greenhopper/" ++ cfg.apiVersion ++ "/rapidviews/list"),
      "GET", some (cookieJoin cookies), true, none⟩
  | .getLastSprintForRapidView rapidViewId =>
    ⟨urlFormat cfg ("rest/greenhopper/" ++ cfg.apiVersion ++ "/sprints/" ++ rapidViewId),
      "GET", some (cookieJoin cookies), true, none⟩
  | .addIssueToSprint issueId sprintId =>
    ⟨urlFormat cfg ("rest/greenhopper/" ++ cfg.apiVersion ++ "/sprint/" ++ sprintId ++ "/issues/add"),
      "PUT", some (cookieJoin cookies), true,
      some (.obj [("issueKeys", .arr [.str issueId])])⟩
  | .issueLink link =>
    ⟨urlFormat cfg ("rest/api/" ++ cfg.apiVersion ++ "/issueLink"),
      "POST", some (cookieJoin cookies), true, some link⟩
  | .getVersions project =>
    ⟨urlFormat cfg ("rest/api/" ++ cfg.apiVersion ++ "/project/" ++ project ++ "/versions"),
      "GET", some (cookieJoin cookies), false, none⟩
  | .createVersion version =>
    ⟨urlFormat cfg ("rest/api/" ++ cfg.apiVersion ++ "/version"),
      "POST", some (cookieJoin cookies), true, some version⟩
  | .searchJira searchString fields =>
    ⟨urlFormat cfg ("rest/api/" ++ cfg.apiVersion ++ "/search"),
      "POST", some (cookieJoin cookies), true,
      some (.obj [("jql", .str searchString), ("startAt", .num 0),
        ("fields", .arr ((searchJiraFields fields).map JVal.str))])⟩
  | .addNewIssue issue =>
    ⟨urlFormat cfg ("rest/api/" ++ cfg.apiVersion ++ "/issue"),
      "POST", some (cookieJoin cookies), true, some issue⟩
  | .deleteIssue issueNum =>
    ⟨urlFormat cfg ("rest/api/" ++ cfg.apiVersion ++ "/issue/" ++ issueNum),
      "DELETE", some (cookieJoin cookies), true, none⟩
  | .updateIssue issueNum issueUpdate =>
    ⟨urlFormat cfg ("rest/api/" ++ cfg.apiVersion ++ "/issue/" ++ issueNum),
      "PUT", some (cookieJoin cookies), true, some issueUpdate⟩
  | .listTransitions issueId =>
    ⟨urlFormat cfg ("rest/api/" ++ cfg.apiVersion ++ "/issue/" ++ issueId ++ "/transitions"),
      "GET", some (cookieJoin cookies), true, none⟩
  | .transitionIssue issueNum issueTransition =>
    ⟨urlFormat cfg ("rest/api/" ++ cfg.apiVersion ++ "/issue/" ++ issueNum ++ "/transitions"),
      "POST", some (cookieJoin cookies), true, some issueTransition⟩
  | .listProjects =>
    ⟨urlFormat cfg ("rest/api/" ++ cfg.apiVersion ++ "/project"),
      "GET", some (cookieJoin cookies), true, none⟩
  | .addWorklog issueId worklog =>
    ⟨urlFormat cfg ("rest/api/" ++ cfg.apiVersion ++ "/issue/" ++ issueId ++ "/worklog"),
      "POST", some (cookieJoin cookies), true, some worklog⟩
  | .listIssueTypes =>
    ⟨urlFormat cfg ("rest/api/" ++ cfg.apiVersion ++ "/issuetype"),
      "GET", some (cookieJoin cookies), true, none⟩

/-- `findIssue`'s response handler. -/
def findIssue_handle (r : Response) : List CbCall :=
  if r.statusCode = 404 then [errCall "Invalid issue number."]
  else if r.statusCode ≠ 200 then
    [errCall (toString r.statusCode ++ ": Unable to connect to JIRA during findIssueStatus.")]
  else [okCall r.body]

/-- `getUnresolvedIssueCount`'s response handler. -/
def getUnresolvedIssueCount_handle (r : Response) : List CbCall :=
  if r.statusCode = 404 then [errCall "Invalid version."]
  else if r.statusCode ≠ 200 then
    [errCall (toString r.statusCode ++ ": Unable to connect to JIRA during findIssueStatus.")]
  else [okCall (jGet r.body "issuesUnresolvedCount")]

/-- `getProject`'s response handler. -/
def getProject_handle (r : Response) : List CbCall :=
  if r.statusCode = 404 then [errCall "Invalid project."]
  else if r.statusCode ≠ 200 then
    [errCall (toString r.statusCode ++ ": Unable to connect to JIRA during getProject.")]
  else [okCall r.body]

/-- The `for` loop of `findRapidView`: invoke the callback on the first
view whose lower-cased name equals the lower-cased project name, then
return; fall off the end otherwise. -/
def findRapidViewLoop (projectName : String) : List JVal → List CbCall
  | [] => []
  | v :: rest =>
    if strToLower (jStr (jGet v "name")) == strToLower projectName then [okCall v]
    else findRapidViewLoop projectName rest

/-- `findRapidView`'s response handler: on 200, when the body is not
`null`, scan `body.views` for a case-insensitive name match. -/
def findRapidView_handle (projectName : String) (r : Response) : List CbCall :=
  if r.statusCode = 404 then [errCall "Invalid URL"]
  else if r.statusCode ≠ 200 then
    [errCall (toString r.statusCode ++ ": Unable to connect to JIRA during rapidView search.")]
  else if !(jIsNull r.body) then
    findRapidViewLoop projectName (jArr (jGet r.body "views"))
  else []

/-- `getLastSprintForRapidView`'s response handler (`sprints.pop()` yields
the last element, `undefined` on an empty array). -/
def getLastSprintForRapidView_handle (r : Response) : List CbCall :=
  if r.statusCode = 404 then [errCall "Invalid URL"]
  else if r.statusCode ≠ 200 then
    [errCall (toString r.statusCode ++ ": Unable to connect to JIRA during sprints search.")]
  else if !(jIsNull r.body) then
    [okCall ((jArr (jGet r.body "sprints")).getLast?.getD JVal.undefined)]
  else []

/-- `addIssueToSprint`'s response handler: no branch handles 204, so on
success the callback is never invoked. -/
def addIssueToSprint_handle (r : Response) : List CbCall :=
  if r.statusCode = 404 then [errCall "Invalid URL"]
  else if r.statusCode ≠ 204 then
    [errCall (toString r.statusCode ++ ": Unable to connect to JIRA to add to sprint.")]
  else []

/-- `issueLink`'s response handler: on 200 it invokes `callback(null)`. -/
def issueLink_handle (r : Response) : List CbCall :=
  if r.statusCode = 404 then [errCall "Invalid project."]
  else if r.statusCode ≠ 200 then
    [errCall (toString r.statusCode ++ ": Unable to connect to JIRA during issueLink.")]
  else [⟨JVal.null, none⟩]

/-- `getVersions`'s response handler. -/
def getVersions_handle (r : Response) : List CbCall :=
  if r.statusCode = 404 then [errCall "Invalid project."]
  else if r.statusCode ≠ 200 then
    [errCall (toString r.statusCode ++ ": Unable to connect to JIRA during getVersions.")]
  else [okCall r.body]

/-- `createVersion`'s response handler: 404 and 403 map to fixed
permission texts, other non-201 statuses to a connection error, 201 to
`(null, body)`. -/
def createVersion_handle (r : Response) : List CbCall :=
  if r.statusCode = 404 then
    [errCall "Version does not exist or the currently authenticated user does not have permission to view it"]
  else if r.statusCode = 403 then
    [errCall "The currently authenticated user does not have permission to edit the version"]
  else if r.statusCode ≠ 201 then
    [errCall (toString r.statusCode ++ ": Unable to connect to JIRA during createVersion.")]
  else [okCall r.body]

/-- `searchJira`'s response handler. -/
def searchJira_handle (r : Response) : List CbCall :=
  if r.statusCode = 400 then [errCall "Problem with the JQL query"]
  else if r.statusCode ≠ 200 then
    [errCall (toString r.statusCode ++ ": Unable to connect to JIRA during search.")]
  else [okCall r.body]

/-- `addNewIssue`'s response handler: a 400 passes the raw body as the
error. -/
def addNewIssue_handle (r : Response) : List CbCall :=
  if r.statusCode = 400 then [⟨r.body, none⟩]
  else if r.statusCode ≠ 200 ∧ r.statusCode ≠ 201 then
    [errCall (toString r.statusCode ++ ": Unable to connect to JIRA during search.")]
  else [okCall r.body]

/-- `deleteIssue`'s response handler: 204 yields `(null, "Success")`,
everything else one error string carrying the status code. -/
def deleteIssue_handle (r : Response) : List CbCall :=
  if r.statusCode = 204 then [okCall (JVal.str "Success")]
  else [errCall (toString r.statusCode ++ ": Error while deleting")]

/-- `updateIssue`'s response handler. -/
def updateIssue_handle (r : Response) : List CbCall :=
  if r.statusCode = 200 then [okCall (JVal.str "Success")]
  else [errCall (toString r.statusCode ++ ": Error while updating")]

/-- `listTransitions`'s response handler: the 404 branch has no `return`,
so after `callback("Issue not found")` control falls through to the
generic `callback(statusCode + ': Error while updating')` below it. -/
def listTransitions_handle (r : Response) : List CbCall :=
  if r.statusCode = 200 then [okCall (jGet r.body "transitions")]
  else
    (if r.statusCode = 404 then [errCall "Issue not found"] else [])
      ++ [errCall (toString r.statusCode ++ ": Error while updating")]

/-- `transitionIssue`'s response handler. -/
def transitionIssue_handle (r : Response) : List CbCall :=
  if r.statusCode = 204 then [okCall (JVal.str "Success")]
  else [errCall (toString r.statusCode ++ ": Error while updating")]

/-- `listProjects`'s response handler: the 500 branch has no `return`, so
after the retrieval error control falls through to the generic error call
below it. -/
def listProjects_handle (r : Response) : List CbCall :=
  if r.statusCode = 200 then [okCall r.body]
  else
    (if r.statusCode = 500 then
      [errCall (toString r.statusCode ++ ": Error while retrieving list.")]
    else [])
      ++ [errCall (toString r.statusCode ++ ": Error while updating")]

/-- `addWorklog`'s response handler. -/
def addWorklog_handle (r : Response) : List CbCall :=
  if r.statusCode = 201 then [okCall (JVal.str "Success")]
  else if r.statusCode = 400 then [errCall ("Invalid Fields: " ++ jStringify r.body)]
  else if r.statusCode = 403 then [errCall "Insufficient Permissions"]
  else [errCall (toString r.statusCode ++ ": Error while updating")]

/-- `listIssueTypes`'s response handler. -/
def listIssueTypes_handle (r : Response) : List CbCall :=
  if r.statusCode = 200 then [okCall r.body]
  else [errCall (toString r.statusCode ++ ": Error while retreiving issue types")]

/-- Dispatch an operation's response to its handler. -/
def opHandle : Op → Response → List CbCall
  | .findIssue _, r => findIssue_handle r
  | .getUnresolvedIssueCount _, r => getUnresolvedIssueCount_handle r
  | .getProject _, r => getProject_handle r
  | .findRapidView projectName, r => findRapidView_handle projectName r
  | .getLastSprintForRapidView _, r => getLastSprintForRapidView_handle r
  | .addIssueToSprint _ _, r => addIssueToSprint_handle r
  | .issueLink _, r => issueLink_handle r
  | .getVersions _, r => getVersions_handle r
  | .createVersion _, r => createVersion_handle r
  | .searchJira _ _, r => searchJira_handle r
  | .addNewIssue _, r => addNewIssue_handle r
  | .deleteIssue _, r => deleteIssue_handle r
  | .updateIssue _ _, r => updateIssue_handle r
  | .listTransitions _, r => listTransitions_handle r
  | .transitionIssue _ _, r => transitionIssue_handle r
  | .listProjects, r => listProjects_handle r
  | .addWorklog _ _, r => addWorklog_handle r
  | .listIssueTypes, r => listIssueTypes_handle r

/-- The jql string `getUsersIssues` builds:
`"assignee = " + username`, plus the open-status clause when `open` is
truthy. -/
def getUsersIssues_jql (username : String) (isOpen : Bool) : String :=
  let jql := "assignee = " ++ username
  let openText := " AND status in (Open, \"In Progress\", Reopened)"
  if isOpen then jql ++ openText else jql

/-- `getUsersIssues` performs no request of its own: it delegates to
`this.searchJira(jql, null, callback)`. -/
def getUsersIssues (username : String) (isOpen : Bool) : Op :=
  .searchJira (getUsersIssues_jql username isOpen) none

/-- One full operation invocation: the login request is issued first; for
each invocation of the continuation the operation passed to `login` (the
operations all pass a zero-parameter `function()`, so it runs identically
whatever arguments `login` hands it), the operation builds its options
from the cookies stored after the login response and issues its own
request, whose response is classified for the caller.  Returns the
requests issued, in order, and the invocations of the caller's callback. -/
def opRun (cfg : Config) (cookies : List String) (op : Op)
    (loginResp opResp : Response) : List RequestSpec × List CbCall :=
  let loginStep := login_handle cookies loginResp
  let conts := loginStep.2.map (fun _ => (opOptions cfg loginStep.1 op, opHandle op opResp))
  (loginOptions cfg :: conts.map Prod.fst, (conts.map Prod.snd).flatten)

/-- A sample client configuration. -/
def cfg0 : Config := ⟨"https", "jira.example.com", "443", "admin", "secret", "2"⟩

/-- A sample parsed issue body. -/
def issueBody0 : JVal := .obj [("key", .str "TEST-1")]

/-- A sample rapid view whose name is lower-case. -/
def viewAlpha : JVal := .obj [("name", .str "alpha"), ("id", .num 1)]

/-- A 200 rapid-view-list response containing `viewAlpha`. -/
def rvResp0 : Response := ⟨200, none, .obj [("views", .arr [viewAlpha])]⟩

/-- A sample parsed version body. -/
def versionBody0 : JVal := .obj [("name", .str "X")]

/-- A 200 login response carrying one `set-cookie` value. -/
def loginResp200 : Response := ⟨200, some ["JSESSIONID=abc123; Path=/"], JVal.null⟩

theorem login_handle_calls (cookies : List String) (r : Response) :
    ∃ c, (login_handle cookies r).2 = [c] := by
  unfold login_handle
  split
  · exact ⟨_, rfl⟩
  · split
    · exact ⟨_, rfl⟩
    · exact ⟨_, rfl⟩

theorem opOptions_cookieHeader (cfg : Config) (cookies : List String) (op : Op) :
    (opOptions cfg cookies op).cookieHeader = some (cookieJoin cookies) := by
  cases op <;> rfl

theorem jGet_arr_not_null (v : JVal) (key : String) (xs : List JVal)
    (h : jGet v key = JVal.arr xs) : jIsNull v = false := by
  cases v
  · rfl
  · simp [jGet] at h
  · rfl
  · rfl
  · rfl
  · rfl
  · rfl

theorem findRapidViewLoop_eq_find (projectName : String) (views : List JVal) :
    findRapidViewLoop projectName views
      = match views.find? (fun w => strToLower (jStr (jGet w "name")) == strToLower projectName) with
        | some v => [okCall v]
        | none => [] := by
  induction views with
  | nil => rfl
  | cons v rest ih =>
    cases hp : (strToLower (jStr (jGet v "name")) == strToLower projectName) <;>
      simp [findRapidViewLoop, List.find?, hp, ih]

/-- Claim C3: on a 200 login response the stored cookies are replaced
wholesale by the `set-cookie` header values (empty when the header is
absent) and login succeeds with `callback(null)`; on any non-200 status
login fails with a string error and the stored cookies are exactly what
they were before the attempt. -/
theorem login_cookie_update (cookies : List String) (r : Response) :
    (r.statusCode = 200 →
      login_handle cookies r = (r.setCookie.getD [], [⟨JVal.null, none⟩]))
    ∧ (r.statusCode ≠ 200 →
      (login_handle cookies r).1 = cookies
        ∧ ∃ msg, (login_handle cookies r).2 = [errCall msg]) := by
  constructor
  · intro h
    simp [login_handle, h]
  · intro h
    by_cases h401 : r.statusCode = 401
    · have hval : login_handle cookies r
          = (cookies, [errCall "Failed to log in to JIRA due to authentication error."]) := by
        simp [login_handle, h401]
      rw [hval]
      exact ⟨rfl, ⟨_, rfl⟩⟩
    · have hval : login_handle cookies r
          = (cookies, [errCall (toString r.statusCode ++ ": Unable to connect to JIRA during login.")]) := by
        simp [login_handle, h401, h]
      rw [hval]
      exact ⟨rfl, ⟨_, rfl⟩⟩

/-- Witness for `login_cookie_update` at concrete responses: a 200
response with one cookie replaces the stored cookies, and a 401 response
leaves them untouched and yields an error. -/
theorem login_cookie_update_witness :
    (loginResp200.statusCode = 200
      ∧ login_handle ["old"] loginResp200
          = (["JSESSIONID=abc123; Path=/"], [⟨JVal.null, none⟩]))
    ∧ ((⟨401, none, JVal.null⟩ : Response).statusCode ≠ 200
      ∧ (login_handle ["old"] ⟨401, none, JVal.null⟩).1 = ["old"]
      ∧ ∃ msg, (login_handle ["old"] ⟨401, none, JVal.null⟩).2 = [errCall msg]) :=
  ⟨⟨rfl, (login_cookie_update ["old"] loginResp200).1 rfl⟩,
    ⟨by decide, (login_cookie_update ["old"] ⟨401, none, JVal.null⟩).2 (by decide)⟩⟩

/-- Claim C1 (amended): the operations pass a zero-parameter continuation
to `login`, so the login outcome is ignored: for every operation and
every login response — success, 401, or other failure — the dependent
request is issued anyway (with the cookies stored after the login
response, which a failed login leaves unchanged), and the caller's
outcome is exactly the classification of the dependent response; the
login error string never reaches the caller. -/
theorem login_outcome_ignored (cfg : Config) (cookies : List String) (op : Op)
    (loginResp opResp : Response) :
    opRun cfg cookies op loginResp opResp
      = ([loginOptions cfg, opOptions cfg (login_handle cookies loginResp).1 op],
        opHandle op opResp) := by
  obtain ⟨c, hc⟩ := login_handle_calls cookies loginResp
  simp [opRun, hc]

/-- Counterexample to claim C1 as stated: with a 401 login response,
`findIssue` still issues its own HTTP request (two requests go out) and
the caller receives the parsed issue from the dependent 200 response,
not the authentication error from login. -/
theorem login401_counterexample :
    ((opRun cfg0 [] (.findIssue "TEST-1") ⟨401, none, JVal.null⟩ ⟨200, none, issueBody0⟩).1).length = 2
    ∧ (opRun cfg0 [] (.findIssue "TEST-1") ⟨401, none, JVal.null⟩ ⟨200, none, issueBody0⟩).2
        = [okCall issueBody0] :=
  ⟨rfl, rfl⟩

/-- Claim C2 (code bug): `listTransitions` on a 404 response and
`listProjects` on a 500 response invoke the caller's callback twice, not
exactly once — the matched error branch has no `return`, so control
falls through to the generic error call below it. -/
theorem fallthrough_double_callback :
    listTransitions_handle ⟨404, none, JVal.null⟩
      = [errCall "Issue not found", errCall "404: Error while updating"]
    ∧ listProjects_handle ⟨500, none, JVal.null⟩
      = [errCall "500: Error while retrieving list.", errCall "500: Error while updating"] :=
  ⟨rfl, rfl⟩

/-- Claim C4: `getUsersIssues(user, true)` delegates to `searchJira`
(with `null` fields) and the JQL string
`assignee = <user> AND status in (Open, "In Progress", Reopened)`;
`getUsersIssues(user, false)` delegates with exactly `assignee = <user>`. -/
theorem getUsersIssues_delegation (username : String) :
    getUsersIssues username true
      = .searchJira ("assignee = " ++ username ++ " AND status in (Open, \"In Progress\", Reopened)") none
    ∧ getUsersIssues username false = .searchJira ("assignee = " ++ username) none :=
  ⟨rfl, rfl⟩

/-- Claim C5: on a 200 response whose body carries a views list,
`findRapidView` yields `(null, v)` for the first view `v` whose name
equals the project name case-insensitively, and invokes no callback at
all when no view's name matches. -/
theorem findRapidView_first_match (projectName : String) (r : Response) (views : List JVal)
    (h200 : r.statusCode = 200) (hviews : jGet r.body "views" = JVal.arr views) :
    (∀ v, views.find? (fun w => strToLower (jStr (jGet w "name")) == strToLower projectName) = some v →
      findRapidView_handle projectName r = [okCall v])
    ∧ (views.find? (fun w => strToLower (jStr (jGet w "name")) == strToLower projectName) = none →
      findRapidView_handle projectName r = []) := by
  have hbody : jIsNull r.body = false := jGet_arr_not_null r.body "views" views hviews
  have hmain : findRapidView_handle projectName r = findRapidViewLoop projectName views := by
    simp [findRapidView_handle, h200, hbody, hviews, jArr]
  rw [hmain, findRapidViewLoop_eq_find]
  constructor
  · intro v hv
    rw [hv]
  · intro hn
    rw [hn]

/-- Witness for `findRapidView_first_match`: the project name `"Alpha"`
matches the stored view named `"alpha"` case-insensitively and the view
is returned. -/
theorem findRapidView_first_match_witness :
    rvResp0.statusCode = 200
    ∧ jGet rvResp0.body "views" = JVal.arr [viewAlpha]
    ∧ [viewAlpha].find? (fun w => strToLower (jStr (jGet w "name")) == strToLower "Alpha") = some viewAlpha
    ∧ findRapidView_handle "Alpha" rvResp0 = [okCall viewAlpha] :=
  ⟨rfl, rfl, rfl,
    (findRapidView_first_match "Alpha" rvResp0 [viewAlpha] rfl rfl).1 viewAlpha rfl⟩

/-- Claim C6: `deleteIssue` yields `(null, "Success")` on a 204 response
and, on any other status, exactly one error string containing the status
code. -/
theorem deleteIssue_outcomes (r : Response) :
    (r.statusCode = 204 → deleteIssue_handle r = [okCall (JVal.str "Success")])
    ∧ (r.statusCode ≠ 204 →
      ∃ msg, deleteIssue_handle r = [errCall msg]
        ∧ ∃ a b, msg = a ++ toString r.statusCode ++ b) := by
  constructor
  · intro h
    simp [deleteIssue_handle, h]
  · intro h
    refine ⟨toString r.statusCode ++ ": Error while deleting", ?_, "", ": Error while deleting", ?_⟩
    · simp [deleteIssue_handle, h]
    · simp

/-- Witness for `deleteIssue_outcomes` at a 204 and at a 500 response. -/
theorem deleteIssue_outcomes_witness :
    ((⟨204, none, JVal.null⟩ : Response).statusCode = 204
      ∧ deleteIssue_handle ⟨204, none, JVal.null⟩ = [okCall (JVal.str "Success")])
    ∧ ((⟨500, none, JVal.null⟩ : Response).statusCode ≠ 204
      ∧ ∃ msg, deleteIssue_handle ⟨500, none, JVal.null⟩ = [errCall msg]
          ∧ ∃ a b, msg = a ++ toString (500 : Nat) ++ b) :=
  ⟨⟨rfl, (deleteIssue_outcomes ⟨204, none, JVal.null⟩).1 rfl⟩,
    ⟨by decide, (deleteIssue_outcomes ⟨500, none, JVal.null⟩).2 (by decide)⟩⟩

/-- Claim C7: `createVersion` yields `(null, body)` on 201, the fixed
permission-denied text on 403, the fixed version-visibility text on 404,
and a connection error carrying the status code on any other non-201
status. -/
theorem createVersion_outcomes (r : Response) :
    (r.statusCode = 201 → createVersion_handle r = [okCall r.body])
    ∧ (r.statusCode = 403 →
      createVersion_handle r
        = [errCall "The currently authenticated user does not have permission to edit the version"])
    ∧ (r.statusCode = 404 →
      createVersion_handle r
        = [errCall "Version does not exist or the currently authenticated user does not have permission to view it"])
    ∧ (r.statusCode ≠ 201 → r.statusCode ≠ 403 → r.statusCode ≠ 404 →
      createVersion_handle r
        = [errCall (toString r.statusCode ++ ": Unable to connect to JIRA during createVersion.")]) := by
  refine ⟨?_, ?_, ?_, ?_⟩
  · intro h
    simp [createVersion_handle, h]
  · intro h
    simp [createVersion_handle, h]
  · intro h
    simp [createVersion_handle, h]
  · intro h1 h2 h3
    simp [createVersion_handle, h1, h2, h3]

/-- Witness for `createVersion_outcomes`: a 201 response with body
`{name: "X"}` yields `(null, {name: "X"})`, and a 403 response yields the
fixed permission-denied text. -/
theorem createVersion_outcomes_witness :
    ((⟨201, none, versionBody0⟩ : Response).statusCode = 201
      ∧ createVersion_handle ⟨201, none, versionBody0⟩ = [okCall versionBody0])
    ∧ ((⟨403, none, JVal.null⟩ : Response).statusCode = 403
      ∧ createVersion_handle ⟨403, none, JVal.null⟩
          = [errCall "The currently authenticated user does not have permission to edit the version"]) :=
  ⟨⟨rfl, (createVersion_outcomes ⟨201, none, versionBody0⟩).1 rfl⟩,
    ⟨rfl, (createVersion_outcomes ⟨403, none, JVal.null⟩).2.1 rfl⟩⟩

/-- Claim C8 (amended): on its 204 success path `addIssueToSprint` never
invokes the callback, but on its 200 success path `issueLink` does invoke
the callback, once, as `callback(null)` — a success signal carrying no
result value. -/
theorem success_callback_behavior (r : Response) :
    (r.statusCode = 204 → addIssueToSprint_handle r = [])
    ∧ (r.statusCode = 200 → issueLink_handle r = [⟨JVal.null, none⟩]) := by
  constructor
  · intro h
    simp [addIssueToSprint_handle, h]
  · intro h
    simp [issueLink_handle, h]

/-- Witness for `success_callback_behavior` at a 204 response for
`addIssueToSprint` and a 200 response for `issueLink`. -/
theorem success_callback_behavior_witness :
    ((⟨204, none, JVal.null⟩ : Response).statusCode = 204
      ∧ addIssueToSprint_handle ⟨204, none, JVal.null⟩ = [])
    ∧ ((⟨200, none, JVal.null⟩ : Response).statusCode = 200
      ∧ issueLink_handle ⟨200, none, JVal.null⟩ = [⟨JVal.null, none⟩]) :=
  ⟨⟨rfl, (success_callback_behavior ⟨204, none, JVal.null⟩).1 rfl⟩,
    ⟨rfl, (success_callback_behavior ⟨200, none, JVal.null⟩).2 rfl⟩⟩

/-- Counterexample to claim C8 as stated: `issueLink` on a 200 response
does invoke its callback — once, with a `null` error. -/
theorem issueLink_success_invokes_callback :
    issueLink_handle ⟨200, none, JVal.null⟩ = [⟨JVal.null, none⟩]
    ∧ issueLink_handle ⟨200, none, JVal.null⟩ ≠ [] :=
  ⟨rfl, by simp [issueLink_handle]⟩

/-- Claim C9: after a 200 login response carrying a `set-cookie` header,
the stored cookies are exactly the header's values, and every operation's
request carries a `Cookie` header equal to those values joined unchanged
with `;` (for a single cookie string, the header value itself). -/
theorem cookie_header_verbatim (cfg : Config) (cookies hs : List String) (op : Op)
    (loginResp : Response) (h200 : loginResp.statusCode = 200)
    (hset : loginResp.setCookie = some hs) :
    (login_handle cookies loginResp).1 = hs
    ∧ (opOptions cfg (login_handle cookies loginResp).1 op).cookieHeader
        = some (String.intercalate ";" hs) := by
  have h1 : (login_handle cookies loginResp).1 = hs := by
    simp [login_handle, h200, hset]
  refine ⟨h1, ?_⟩
  rw [h1, opOptions_cookieHeader]
  rfl

/-- Witness for `cookie_header_verbatim`: one stored cookie string
reappears verbatim as `findIssue`'s `Cookie` header. -/
theorem cookie_header_verbatim_witness :
    (⟨200, some ["JSESSIONID=abc123"], JVal.null⟩ : Response).statusCode = 200
    ∧ (⟨200, some ["JSESSIONID=abc123"], JVal.null⟩ : Response).setCookie = some ["JSESSIONID=abc123"]
    ∧ (opOptions cfg0 (login_handle [] ⟨200, some ["JSESSIONID=abc123"], JVal.null⟩).1
        (.findIssue "TEST-1")).cookieHeader = some "JSESSIONID=abc123" :=
  ⟨rfl, rfl,
    (cookie_header_verbatim cfg0 [] ["JSESSIONID=abc123"] (.findIssue "TEST-1")
      ⟨200, some ["JSESSIONID=abc123"], JVal.null⟩ rfl rfl).2⟩

/-- Claim C10: `searchJira` with `null` fields sends a body whose fields
list is exactly `["summary", "status", "assignee", "description"]`, and
for every fields argument the body's `startAt` is the literal `0`. -/
theorem searchJira_body_defaults (cfg : Config) (cookies : List String) (searchString : String) :
    (opOptions cfg cookies (.searchJira searchString none)).body
      = some (.obj [("jql", .str searchString), ("startAt", .num 0),
          ("fields", .arr [.str "summary", .str "status", .str "assignee", .str "description"])])
    ∧ ∀ fields, (opOptions cfg cookies (.searchJira searchString fields)).body.map
        (fun b => jGet b "startAt") = some (JVal.num 0) := by
  constructor
  · rfl
  · intro fields
    rfl

end Jira
